import Mathlib

/-!
Verification of the outcome-classifier logic of the 1xbet predictions app.

The JavaScript source (`netlify/functions/predictions.js` and its duplicate)
computes, per fixture, a recommended outcome, a confidence tier, an
over/under label, a both-teams-to-score label and a synthesized exact score.
We embed those functions shallowly:

* JavaScript numbers obtained from `parseInt` / `parseFloat` are modelled as
  `Option Int` / `Option ℚ`, with `none` playing the role of `NaN`
  (`parseInt`/`parseFloat` never throw in JavaScript; they yield `NaN` on
  non-numeric input, and every comparison against `NaN` is false).
* `String.prototype.replace` with a plain-string pattern replaces only the
  first occurrence; we model that directly.
* Optional JSON fields (goal estimates, advice, team stat averages) are
  modelled as `Option String`, with JavaScript truthiness (absent or the
  empty string is falsy).
-/

namespace Xbet

/-- Remove the first occurrence of `pat` from `cs` (character-list form of
JavaScript `s.replace(pat, '')`, which replaces only the first match). -/
def jsRemoveFirst : List Char → List Char → List Char
  | [], _ => []
  | c :: cs, pat =>
    if pat.isPrefixOf (c :: cs) then (c :: cs).drop pat.length
    else c :: jsRemoveFirst cs pat

/-- JavaScript `s.replace(pat, '')` for a plain-string `pat`: only the first
occurrence is removed. -/
def jsReplaceFirst (s pat : String) : String :=
  ⟨jsRemoveFirst s.data pat.data⟩

/-- Value of a list of decimal digit characters. -/
def digitsToNat (ds : List Char) : Nat :=
  ds.foldl (fun n c => 10 * n + (c.toNat - 48)) 0

/-- JavaScript `parseInt(s)` (radix 10 path, which is the one exercised by the
`"<n>%"` percentage strings of the upstream API): skip leading whitespace,
read an optional sign and then the longest prefix of decimal digits; if no
digit is found the result is `NaN`, modelled as `none`. -/
def jsParseInt (s : String) : Option Int :=
  let cs := s.data.dropWhile Char.isWhitespace
  let signAndRest : Int × List Char :=
    match cs with
    | '-' :: rest => (-1, rest)
    | '+' :: rest => (1, rest)
    | _ => (1, cs)
  let ds := signAndRest.2.takeWhile Char.isDigit
  if ds.isEmpty then none
  else some (signAndRest.1 * (digitsToNat ds : Int))

/-- JavaScript `parseFloat(s)` on decimal literals (the form the upstream
API's average-goal strings take): optional sign, integer digits, optional
fractional digits; at least one digit overall, else `NaN` (`none`). -/
def jsParseFloat (s : String) : Option ℚ :=
  let cs := s.data.dropWhile Char.isWhitespace
  let signAndRest : ℚ × List Char :=
    match cs with
    | '-' :: rest => (-1, rest)
    | '+' :: rest => (1, rest)
    | _ => (1, cs)
  let ip := signAndRest.2.takeWhile Char.isDigit
  let rest := signAndRest.2.dropWhile Char.isDigit
  match rest with
  | '.' :: rest2 =>
    let fp := rest2.takeWhile Char.isDigit
    if ip.isEmpty && fp.isEmpty then none
    else some (signAndRest.1 *
      ((digitsToNat ip : ℚ) + (digitsToNat fp : ℚ) / (10 ^ fp.length : ℚ)))
  | _ =>
    if ip.isEmpty then none
    else some (signAndRest.1 * (digitsToNat ip : ℚ))

/-- `a >= b` on a possibly-`NaN` left operand: false when `NaN`. -/
def jsGe (a : Option Int) (b : Int) : Bool :=
  match a with
  | some x => b ≤ x
  | none => false

/-- `a <= b` on a possibly-`NaN` left operand: false when `NaN`. -/
def jsLe (a : Option Int) (b : Int) : Bool :=
  match a with
  | some x => x ≤ b
  | none => false

/-- `a > b` on possibly-`NaN` operands: false when either is `NaN`. -/
def jsGt (a b : Option Int) : Bool :=
  match a, b with
  | some x, some y => y < x
  | _, _ => false

/-- `Math.max` on two possibly-`NaN` numbers: `NaN` when either is `NaN`. -/
def jsMax2 (a b : Option Int) : Option Int :=
  match a, b with
  | some x, some y => some (max x y)
  | _, _ => none

/-- One parsed percentage: strip the (first) `%` and `parseInt`. -/
def parsePct (s : String) : Option Int :=
  jsParseInt (jsReplaceFirst s "%")

/-- `getConfidence(homePct, awayPct, drawPct)` from the source: parse the three
percentages, take `Math.max(home, away, draw)` and tier it (`>= 50 → 4`,
`>= 45 → 3`, else `2`). A `NaN` maximum fails both comparisons, giving `2`;
the source's `try/catch` is unreachable for string inputs. -/
def getConfidence (homePct awayPct drawPct : String) : Nat :=
  let home := parsePct homePct
  let away := parsePct awayPct
  let draw := parsePct drawPct
  let maxProb := jsMax2 home (jsMax2 away draw)
  if jsGe maxProb 50 then 4
  else if jsGe maxProb 45 then 3
  else 2

/-- Result record of `determinePrediction`: outcome code and display text. -/
structure PredictionResult where
  prediction : String
  text : String
deriving DecidableEq, Repr

/-- The hardcoded big-club list of `determinePrediction`. -/
def bigClubs : List String :=
  ["Al Ahly", "Zamalek", "Zamalek SC", "Pyramids FC"]

/-- JavaScript `s.includes(sub)`: substring containment. -/
def jsIncludes (s sub : String) : Bool :=
  decide (sub.data <:+: s.data)

/-- `determinePrediction(homePct, awayPct, drawPct, homeName, awayName)` from
the source: the six-rule cascading decision table. All comparisons are
`NaN`-aware; the `catch` branch (`X` / "Match Nul") is unreachable for string
inputs because `parseInt` never throws. -/
def determinePrediction (homePct awayPct drawPct homeName awayName : String) :
    PredictionResult :=
  let home := parsePct homePct
  let away := parsePct awayPct
  let draw := parsePct drawPct
  if jsGe home 45 && jsLe away 10 then
    ⟨"1", homeName ++ " gagne"⟩
  else if jsGe away 45 && jsLe home 10 then
    if bigClubs.any (fun club => jsIncludes homeName club) then
      ⟨"1X", "DC " ++ homeName⟩
    else
      ⟨"2", awayName ++ " gagne"⟩
  else if jsGe home 35 && jsGe draw 35 then
    ⟨"1X", "DC " ++ homeName⟩
  else if jsGe away 35 && jsGe draw 35 then
    ⟨"X2", "DC " ++ awayName⟩
  else if jsGe draw 40 then
    ⟨"X", "Match Nul probable"⟩
  else if jsGt home away then
    ⟨"1X", "DC " ++ homeName⟩
  else
    ⟨"X2", "DC " ++ awayName⟩

/-- JavaScript truthiness of an optional string field: absent (`undefined` /
`null`) and the empty string are falsy. -/
def jsTruthy : Option String → Bool
  | none => false
  | some s => !(s == "")

/-- The advice fallback of `determineOverUnder`: reached when the
goal-estimate branch did not return. -/
def adviceBranch (advice : Option String) : String :=
  if jsTruthy advice then
    if jsIncludes (advice.getD "") "+2.5" || jsIncludes (advice.getD "") "+3.5" then
      "Over 2.5"
    else if jsIncludes (advice.getD "") "-2.5" || jsIncludes (advice.getD "") "-3.5" then
      "Under 2.5"
    else "Under 2.5"
  else "Under 2.5"

/-- `determineOverUnder(goalsHome, goalsAway, advice)` from the source: the
goal-estimate texts are inspected only when both are truthy; when that branch
does not return, control falls through to the advice string. -/
def determineOverUnder (goalsHome goalsAway advice : Option String) : String :=
  if jsTruthy goalsHome && jsTruthy goalsAway then
    if jsIncludes (goalsHome.getD "") "3.5" || jsIncludes (goalsAway.getD "") "3.5" then
      "Over 2.5"
    else if jsIncludes (goalsHome.getD "") "2.5" || jsIncludes (goalsAway.getD "") "2.5" then
      "Under 3.5"
    else adviceBranch advice
  else adviceBranch advice

/-- The over/under rule as it actually behaves, as a flat first-match list of
labelled conditions: the goal-estimate clauses carry the code's
both-texts-present guard — which the specification's wording omits — then
come the advice clauses and the default. This is the amended form of the
spec's rule. -/
def overUnderSpecModel (goalsHome goalsAway advice : Option String) : String :=
  if (jsTruthy goalsHome && jsTruthy goalsAway) &&
      (jsIncludes (goalsHome.getD "") "3.5" || jsIncludes (goalsAway.getD "") "3.5") then
    "Over 2.5"
  else if (jsTruthy goalsHome && jsTruthy goalsAway) &&
      (jsIncludes (goalsHome.getD "") "2.5" || jsIncludes (goalsAway.getD "") "2.5") then
    "Under 3.5"
  else if jsTruthy advice &&
      (jsIncludes (advice.getD "") "+2.5" || jsIncludes (advice.getD "") "+3.5") then
    "Over 2.5"
  else if jsTruthy advice &&
      (jsIncludes (advice.getD "") "-2.5" || jsIncludes (advice.getD "") "-3.5") then
    "Under 2.5"
  else "Under 2.5"

/-- The over/under rule exactly as the specification and the claim word it,
with no guard on the goal-estimate clauses: "if either side's text contains
3.5, label Over 2.5; else if either contains 2.5, label Under 3.5", falling
back to the advice clauses and the default only when those matched nothing
(an absent text contains nothing). -/
def overUnderClaimModel (goalsHome goalsAway advice : Option String) : String :=
  if jsIncludes (goalsHome.getD "") "3.5" || jsIncludes (goalsAway.getD "") "3.5" then
    "Over 2.5"
  else if jsIncludes (goalsHome.getD "") "2.5" || jsIncludes (goalsAway.getD "") "2.5" then
    "Under 3.5"
  else if jsTruthy advice &&
      (jsIncludes (advice.getD "") "+2.5" || jsIncludes (advice.getD "") "+3.5") then
    "Over 2.5"
  else if jsTruthy advice &&
      (jsIncludes (advice.getD "") "-2.5" || jsIncludes (advice.getD "") "-3.5") then
    "Under 2.5"
  else "Under 2.5"

/-- `a > b` on a possibly-`NaN` rational left operand: false when `NaN`. -/
def jsGtQ (a : Option ℚ) (b : ℚ) : Bool :=
  match a with
  | some x => b < x
  | none => false

/-- `a < b` on a possibly-`NaN` rational left operand: false when `NaN`. -/
def jsLtQ (a : Option ℚ) (b : ℚ) : Bool :=
  match a with
  | some x => x < b
  | none => false

/-- `parseFloat(stat || 0)` applied to an optional stat string: a missing or
falsy field defaults to `0`; a present non-empty string is parsed, possibly
to `NaN`. -/
def avgStat (stat : Option String) : Option ℚ :=
  match stat with
  | none => some 0
  | some s => if s == "" then some 0 else jsParseFloat s

/-- `determineBTTS(teams, comparison)` from the source, with the four nested
stat lookups (`teams.{home,away}.league.goals.{for,against}.average.total`)
flattened into the four optional string arguments; the `comparison` argument
is unused by the source body and omitted here. -/
def determineBTTS (homeForStat awayForStat homeAgainstStat awayAgainstStat :
    Option String) : String :=
  let homeGoalsFor := avgStat homeForStat
  let awayGoalsFor := avgStat awayForStat
  let homeGoalsAgainst := avgStat homeAgainstStat
  let awayGoalsAgainst := avgStat awayAgainstStat
  if jsGtQ homeGoalsFor 0.8 && jsGtQ awayGoalsFor 0.8 &&
      jsGtQ homeGoalsAgainst 0.8 && jsGtQ awayGoalsAgainst 0.8 then
    "Oui"
  else if jsLtQ homeGoalsAgainst 0.5 || jsLtQ awayGoalsAgainst 0.5 then
    "Non"
  else if jsGtQ homeGoalsFor 1 && jsGtQ awayGoalsFor 1 then
    "Oui"
  else "Non"

/-- The BTTS rule as the specification words it, over the four (parsed)
averages. -/
def bttsSpec (hf af ha aa : ℚ) : String :=
  if 0.8 < hf ∧ 0.8 < af ∧ 0.8 < ha ∧ 0.8 < aa then "Oui"
  else if ha < 0.5 ∨ aa < 0.5 then "Non"
  else if 1 < hf ∧ 1 < af then "Oui"
  else "Non"

/-- `Math.round` on a possibly-`NaN` number: round half toward positive
infinity; `NaN` propagates. -/
def jsRoundO (q : Option ℚ) : Option Int :=
  q.map (fun x => Int.floor (x + 1 / 2))

/-- `x + 1` on a possibly-`NaN` number. -/
def jsAddOne (a : Option Int) : Option Int :=
  a.map (fun x => x + 1)

/-- `Math.max` on possibly-`NaN` integers: `NaN` propagates. -/
def jsMaxO (a b : Option Int) : Option Int :=
  match a, b with
  | some x, some y => some (max x y)
  | _, _ => none

/-- `Math.min` on possibly-`NaN` integers: `NaN` propagates. -/
def jsMinO (a b : Option Int) : Option Int :=
  match a, b with
  | some x, some y => some (min x y)
  | _, _ => none

/-- Template-literal rendering of a possibly-`NaN` number. -/
def jsNumToString : Option Int → String
  | none => "NaN"
  | some n => toString n

/-- `parseFloat(teams?.home?.league?.goals?.for?.average?.home || 1.2)`:
missing or falsy stat defaults to `1.2`. -/
def avgForHome (stat : Option String) : Option ℚ :=
  match stat with
  | none => some 1.2
  | some s => if s == "" then some 1.2 else jsParseFloat s

/-- `parseFloat(teams?.away?.league?.goals?.for?.average?.away || 0.9)`:
missing or falsy stat defaults to `0.9`. -/
def avgForAway (stat : Option String) : Option ℚ :=
  match stat with
  | none => some 0.9
  | some s => if s == "" then some 0.9 else jsParseFloat s

/-- `determineExactScore(prediction, teams, goalsHome, goalsAway)` from the
source, with the two stat lookups flattened into the optional string
arguments; the `goalsHome` / `goalsAway` arguments are unused by the source
body and omitted here. Exactly one branch of the `if`/`else if` chain runs,
so the `2`/`X2` branch sees the unadjusted home goals; the clamps are applied
after the adjustment. -/
def determineExactScore (prediction : String) (homeStat awayStat : Option String) :
    String :=
  let homeGoals := jsRoundO (avgForHome homeStat)
  let awayGoals := jsRoundO (avgForAway awayStat)
  let adjusted : Option Int × Option Int :=
    if prediction == "1" || prediction == "1X" then
      (jsMaxO homeGoals (jsAddOne awayGoals), awayGoals)
    else if prediction == "2" || prediction == "X2" then
      (homeGoals, jsMaxO awayGoals (jsAddOne homeGoals))
    else if prediction == "X" then
      (homeGoals, homeGoals)
    else
      (homeGoals, awayGoals)
  jsNumToString (jsMinO (jsMaxO adjusted.1 (some 0)) (some 4)) ++ "-" ++
    jsNumToString (jsMinO (jsMaxO adjusted.2 (some 0)) (some 3))

/-- A fixture as returned by the upstream `/fixtures` call: the fields the
handler reads. -/
structure RawFixture where
  fixtureId : Nat
  date : String
  leagueId : Nat
  leagueName : String
  homeName : String
  awayName : String

/-- The per-fixture record the handler builds before fetching predictions. -/
structure FixtureInfo where
  id : Nat
  time : String
  league : String
  home : String
  away : String

/-- Keys of the `PRIORITY_LEAGUES` table. -/
def priorityLeagueIds : List Nat :=
  [39, 140, 135, 78, 61, 2, 3, 848, 262, 94, 88, 90, 144, 203, 206, 179,
   197, 307, 305, 301, 330, 417, 895, 233]

/-- The league-name keyword list of the handler's filter. -/
def importantKeywords : List String :=
  ["Serie A", "Liga", "Premier", "Bundesliga", "Ligue 1", "Champions",
   "Europa", "Cup", "Copa", "Coupe"]

/-- The handler's fixture filter: priority league id or important keyword in
the league name. -/
def isImportantFixture (f : RawFixture) : Bool :=
  priorityLeagueIds.contains f.leagueId ||
    importantKeywords.any (fun kw => jsIncludes f.leagueName kw)

/-- Build the `importantFixtures` entry: `f.fixture.date.substring(11, 16)`
extracts the `HH:MM` part of the ISO timestamp. -/
def toFixtureInfo (f : RawFixture) : FixtureInfo :=
  ⟨f.fixtureId, (f.date.drop 11).take 5, f.leagueName, f.homeName, f.awayName⟩

/-- The prediction-assembly part of the handler, with the network fetch
abstracted as an oracle `fetchPrediction : FixtureInfo → Option P` (`none`
models a failed or empty upstream response, dropped by the
`results.filter(r => r !== null)` step): filter the fixtures, truncate to the
first 25, fetch per fixture, drop failures, sort by kickoff time. -/
def handlerPredictions {P : Type} (timeOf : P → String)
    (fetchPrediction : FixtureInfo → Option P) (fixtures : List RawFixture) :
    List P :=
  let importantFixtures := (fixtures.filter isImportantFixture).map toFixtureInfo
  let limitedFixtures := importantFixtures.take 25
  let results := limitedFixtures.map fetchPrediction
  let predictions := results.filterMap id
  predictions.mergeSort (fun a b => decide (timeOf a ≤ timeOf b))

/-- The confidence tier as a function of the maximum parsed percentage:
the abstraction the specification states `getConfidence` through. -/
def tierOf (m : Int) : Nat :=
  if 50 ≤ m then 4
  else if 45 ≤ m then 3
  else 2

/-- C1: whenever the parsed home percentage is at least 45 and the parsed
away percentage is at most 10, `determinePrediction` returns outcome `"1"`
with text `"<home> gagne"` (rule 1, evaluated first). -/
theorem determinePrediction_rule1 (homePct awayPct drawPct homeName awayName : String)
    (h a : Int) (hh : parsePct homePct = some h) (ha : parsePct awayPct = some a)
    (h45 : 45 ≤ h) (h10 : a ≤ 10) :
    determinePrediction homePct awayPct drawPct homeName awayName =
      ⟨"1", homeName ++ " gagne"⟩ := by
  unfold determinePrediction
  rw [hh, ha]
  simp [jsGe, jsLe, h45, h10]

/-- Witness for C1 at home 45%, away 10%. -/
theorem determinePrediction_rule1_witness :
    determinePrediction "45%" "10%" "30%" "Arsenal" "Chelsea" =
      ⟨"1", "Arsenal gagne"⟩ :=
  determinePrediction_rule1 "45%" "10%" "30%" "Arsenal" "Chelsea" 45 10
    (by decide) (by decide) (by decide) (by decide)

/-- C2: whenever the parsed away percentage is at least 45, the parsed home
percentage is at most 10, and the home team's name contains one of the
configured big-club names, `determinePrediction` returns outcome `"1X"` with
text `"DC <home>"` instead of `"2"`. -/
theorem determinePrediction_bigClub (homePct awayPct drawPct homeName awayName : String)
    (h a : Int) (hh : parsePct homePct = some h) (ha : parsePct awayPct = some a)
    (a45 : 45 ≤ a) (h10 : h ≤ 10)
    (hclub : bigClubs.any (fun club => jsIncludes homeName club) = true) :
    determinePrediction homePct awayPct drawPct homeName awayName =
      ⟨"1X", "DC " ++ homeName⟩ := by
  unfold determinePrediction
  rw [hh, ha]
  have hno : ¬ (45 ≤ h) := by omega
  simp [jsGe, jsLe, hno, a45, h10, hclub]

/-- Witness for C2 at away 70%, home 8%, home team "Al Ahly SC". -/
theorem determinePrediction_bigClub_witness :
    determinePrediction "8%" "70%" "22%" "Al Ahly SC" "Wydad" =
      ⟨"1X", "DC Al Ahly SC"⟩ :=
  determinePrediction_bigClub "8%" "70%" "22%" "Al Ahly SC" "Wydad" 8 70
    (by decide) (by decide) (by decide) (by decide) (by decide)

/-- C3: first-match priority of the decision table. Whenever the parsed home
and draw percentages are both at least 35 and rules 1 and 2 do not apply,
the outcome is `"1X"` (rule 3), regardless of whether rule 4's condition
(away and draw both at least 35) also holds. -/
theorem determinePrediction_rule3 (homePct awayPct drawPct homeName awayName : String)
    (h a d : Int) (hh : parsePct homePct = some h) (ha : parsePct awayPct = some a)
    (hd : parsePct drawPct = some d)
    (h35 : 35 ≤ h) (d35 : 35 ≤ d)
    (hr1 : ¬ (45 ≤ h ∧ a ≤ 10)) (hr2 : ¬ (45 ≤ a ∧ h ≤ 10)) :
    determinePrediction homePct awayPct drawPct homeName awayName =
      ⟨"1X", "DC " ++ homeName⟩ := by
  unfold determinePrediction
  rw [hh, ha, hd]
  simp only [jsGe, jsLe, Bool.and_eq_true, decide_eq_true_eq]
  rw [if_neg hr1, if_neg hr2, if_pos ⟨h35, d35⟩]

/-- Witness for C3 at home 38%, draw 38%, away 24% (rule 4's condition does
not hold here, but rule 3 fires before rule 4 would even be examined). -/
theorem determinePrediction_rule3_witness :
    determinePrediction "38%" "24%" "38%" "Metz" "Nancy" =
      ⟨"1X", "DC Metz"⟩ :=
  determinePrediction_rule3 "38%" "24%" "38%" "Metz" "Nancy" 38 24 38
    (by decide) (by decide) (by decide) (by decide) (by decide)
    (by decide) (by decide)

/-- C4, counterexample: on the all-non-numeric input `"abc%"` the function
does not return the `catch` default `⟨"X", "Match Nul"⟩`; `parseInt` yields
`NaN` without throwing, every comparison against `NaN` is false, and the
final `else` returns `⟨"X2", "DC <away>"⟩`. -/
theorem determinePrediction_abc_cex :
    determinePrediction "abc%" "abc%" "abc%" "Lens" "Lille" =
        ⟨"X2", "DC Lille"⟩ ∧
      determinePrediction "abc%" "abc%" "abc%" "Lens" "Lille" ≠
        ⟨"X", "Match Nul"⟩ := by
  constructor
  · decide
  · decide

/-- C4, amended: for every input whose three percentage strings are
non-numeric (parse to `NaN`), `determinePrediction` does not throw and
returns outcome `"X2"` with text `"DC <away>"`: all `NaN` comparisons fail,
so control falls through every rule to the final `else`'s away branch. -/
theorem determinePrediction_nan (homePct awayPct drawPct homeName awayName : String)
    (hh : parsePct homePct = none) (ha : parsePct awayPct = none)
    (hd : parsePct drawPct = none) :
    determinePrediction homePct awayPct drawPct homeName awayName =
      ⟨"X2", "DC " ++ awayName⟩ := by
  unfold determinePrediction
  rw [hh, ha, hd]
  simp [jsGe, jsLe, jsGt]

/-- Witness for the amended C4 at `"abc%"` inputs. -/
theorem determinePrediction_nan_witness :
    determinePrediction "abc%" "abc%" "abc%" "A" "B" = ⟨"X2", "DC B"⟩ :=
  determinePrediction_nan "abc%" "abc%" "abc%" "A" "B"
    (by decide) (by decide) (by decide)

/-- C5: on a well-formed percentage triple `getConfidence` is `tierOf` of the
maximum parsed percentage, where `tierOf` maps `≥ 50` to 4, `≥ 45` to 3 and
everything else to 2; `tierOf` is monotone, strictly increases exactly at
the 45 and 50 boundaries, and never produces tier 1. -/
theorem getConfidence_tier (homePct awayPct drawPct : String) (h a d : Int)
    (hh : parsePct homePct = some h) (ha : parsePct awayPct = some a)
    (hd : parsePct drawPct = some d) :
    getConfidence homePct awayPct drawPct = tierOf (max h (max a d)) ∧
      (∀ m n : Int, m ≤ n → tierOf m ≤ tierOf n) ∧
      (∀ m n : Int, tierOf m < tierOf n ↔ ((m < 45 ∧ 45 ≤ n) ∨ (m < 50 ∧ 50 ≤ n))) ∧
      (∀ m : Int, tierOf m ≠ 1) := by
  refine ⟨?_, ?_, ?_, ?_⟩
  · unfold getConfidence tierOf
    rw [hh, ha, hd]
    simp [jsMax2, jsGe]
  · intro m n hmn
    unfold tierOf
    split_ifs <;> omega
  · intro m n
    unfold tierOf
    split_ifs <;> omega
  · intro m
    unfold tierOf
    split_ifs <;> omega

/-- Witness for C5 at 50% / 20% / 30%. -/
theorem getConfidence_tier_witness :
    getConfidence "50%" "20%" "30%" = tierOf (max 50 (max 20 30)) :=
  (getConfidence_tier "50%" "20%" "30%" 50 20 30
    (by decide) (by decide) (by decide)).1

/-- C6, counterexample: with a lone home goal-estimate text containing
`"3.5"` (away text absent, no advice), the code returns `"Under 2.5"` —
the claim's unguarded first clause ("if either side's text contains 3.5,
the label is Over 2.5") demands `"Over 2.5"` at this input, because the
code inspects the goal-estimate texts only when both are truthy. -/
theorem determineOverUnder_lone_text_cex :
    determineOverUnder (some "3.5") none none = "Under 2.5" ∧
      overUnderClaimModel (some "3.5") none none = "Over 2.5" ∧
      determineOverUnder (some "3.5") none none ≠
        overUnderClaimModel (some "3.5") none none := by
  decide

/-- C6, amended: `determineOverUnder` implements the over/under rule with
the goal-estimate clauses applying only when both sides' texts are present
(truthy) — if so and either contains `"3.5"`, the label is `"Over 2.5"`,
else if either contains `"2.5"`, `"Under 3.5"` — otherwise (a text absent,
or nothing matched) it falls back to the advice string (`"+2.5"`/`"+3.5"` →
`"Over 2.5"`, `"-2.5"`/`"-3.5"` → `"Under 2.5"`) and finally to the
`"Under 2.5"` default. -/
theorem determineOverUnder_matches_spec (goalsHome goalsAway advice : Option String) :
    determineOverUnder goalsHome goalsAway advice =
      overUnderSpecModel goalsHome goalsAway advice := by
  unfold determineOverUnder overUnderSpecModel adviceBranch
  generalize (jsTruthy goalsHome && jsTruthy goalsAway) = t
  generalize (jsIncludes (goalsHome.getD "") "3.5" || jsIncludes (goalsAway.getD "") "3.5") = p3
  generalize (jsIncludes (goalsHome.getD "") "2.5" || jsIncludes (goalsAway.getD "") "2.5") = p2
  generalize jsTruthy advice = ta
  generalize (jsIncludes (advice.getD "") "+2.5" || jsIncludes (advice.getD "") "+3.5") = pp
  generalize (jsIncludes (advice.getD "") "-2.5" || jsIncludes (advice.getD "") "-3.5") = pm
  cases t <;> cases p3 <;> cases p2 <;> cases ta <;> cases pp <;> cases pm <;> rfl

/-- C7: `determineBTTS` implements the BTTS rule as the specification words
it over the four parsed averages, and a missing stat field defaults that
average to 0. -/
theorem determineBTTS_matches_spec (s1 s2 s3 s4 : Option String) (hf af ha aa : ℚ)
    (h1 : avgStat s1 = some hf) (h2 : avgStat s2 = some af)
    (h3 : avgStat s3 = some ha) (h4 : avgStat s4 = some aa) :
    determineBTTS s1 s2 s3 s4 = bttsSpec hf af ha aa ∧ avgStat none = some 0 := by
  refine ⟨?_, rfl⟩
  unfold determineBTTS bttsSpec
  rw [h1, h2, h3, h4]
  simp [jsGtQ, jsLtQ, and_assoc]

/-- Witness for C7 at averages 1.5 / 1.5 / 1.0 / 1.0. -/
theorem determineBTTS_matches_spec_witness :
    determineBTTS (some "1.5") (some "1.5") (some "1.0") (some "1.0") =
        bttsSpec 1.5 1.5 1 1 ∧ avgStat none = some 0 :=
  determineBTTS_matches_spec (some "1.5") (some "1.5") (some "1.0") (some "1.0")
    1.5 1.5 1 1 (by with_unfolding_all decide) (by with_unfolding_all decide)
    (by with_unfolding_all decide) (by with_unfolding_all decide)

/-- Rendering a clamped pair always yields components in `[0,4] × [0,3]`. -/
theorem clampedPair_inRange (x y : Int) :
    ∃ H A : Int, 0 ≤ H ∧ H ≤ 4 ∧ 0 ≤ A ∧ A ≤ 3 ∧
      jsNumToString (jsMinO (jsMaxO (some x) (some 0)) (some 4)) ++ "-" ++
        jsNumToString (jsMinO (jsMaxO (some y) (some 0)) (some 3)) =
      toString H ++ "-" ++ toString A := by
  refine ⟨min (max x 0) 4, min (max y 0) 3, ?_, ?_, ?_, ?_, rfl⟩
  · exact le_min (le_max_right x 0) (by norm_num)
  · exact min_le_right _ _
  · exact le_min (le_max_right y 0) (by norm_num)
  · exact min_le_right _ _

/-- C8, amended: whenever the two scoring-average inputs yield numbers (they
are missing, empty, or numeric — so `parseFloat` does not produce `NaN`),
the exact score is `"H-A"` with `H ∈ [0,4]` and `A ∈ [0,3]`. A present
non-numeric stat string instead propagates `NaN` into the rendering (see the
counterexample). -/
theorem determineExactScore_inRange (prediction : String)
    (homeStat awayStat : Option String) (qh qa : ℚ)
    (h1 : avgForHome homeStat = some qh) (h2 : avgForAway awayStat = some qa) :
    ∃ H A : Int, 0 ≤ H ∧ H ≤ 4 ∧ 0 ≤ A ∧ A ≤ 3 ∧
      determineExactScore prediction homeStat awayStat =
        toString H ++ "-" ++ toString A := by
  unfold determineExactScore
  rw [h1, h2]
  simp only [jsRoundO, Option.map_some']
  split_ifs <;>
    simp only [jsMaxO, jsMinO, jsAddOne, Option.map_some'] <;>
    exact clampedPair_inRange _ _

/-- Witness for the amended C8 at prediction `"1"` with both stats missing
(defaults 1.2 and 0.9). -/
theorem determineExactScore_inRange_witness :
    ∃ H A : Int, 0 ≤ H ∧ H ≤ 4 ∧ 0 ≤ A ∧ A ≤ 3 ∧
      determineExactScore "1" none none = toString H ++ "-" ++ toString A :=
  determineExactScore_inRange "1" none none 1.2 0.9 rfl rfl

/-- C8, counterexample: with a present non-numeric home-scoring stat the
exact score is `"NaN-NaN"`, which is not `"H-A"` for any in-range pair. -/
theorem determineExactScore_nan_cex :
    determineExactScore "X" (some "abc") (some "1.0") = "NaN-NaN" ∧
      ¬ ∃ H A : Int, 0 ≤ H ∧ H ≤ 4 ∧ 0 ≤ A ∧ A ≤ 3 ∧
        determineExactScore "X" (some "abc") (some "1.0") =
          toString H ++ "-" ++ toString A := by
  have hval : determineExactScore "X" (some "abc") (some "1.0") = "NaN-NaN" := by
    with_unfolding_all decide
  refine ⟨hval, ?_⟩
  rintro ⟨H, A, h0, h4, a0, a3, heq⟩
  rw [hval] at heq
  interval_cases H <;> interval_cases A <;> revert heq <;> decide

/-- C9: the handler truncates the filtered fixture list to its first 25
elements before fetching, so at most 25 predictions are returned, whatever
the upstream fixtures and per-fixture fetch results are. -/
theorem handlerPredictions_length_le (P : Type) (timeOf : P → String)
    (fetchPrediction : FixtureInfo → Option P) (fixtures : List RawFixture) :
    (handlerPredictions timeOf fetchPrediction fixtures).length ≤ 25 := by
  unfold handlerPredictions
  rw [(List.mergeSort_perm _ _).length_eq]
  calc (((((fixtures.filter isImportantFixture).map toFixtureInfo).take 25).map
          fetchPrediction).filterMap id).length
      ≤ ((((fixtures.filter isImportantFixture).map toFixtureInfo).take 25).map
          fetchPrediction).length := List.length_filterMap_le id _
    _ = (((fixtures.filter isImportantFixture).map toFixtureInfo).take 25).length := by
        rw [List.length_map]
    _ ≤ 25 := by rw [List.length_take]; exact Nat.min_le_left _ _

/-- C10: a prediction of `"X"` does not guarantee a drawn exact score: the
`"X"` branch copies the home goals to the away goals before the asymmetric
clamps, so a home-scoring average that rounds to 4 yields `"4-3"`, whose
components are unequal. -/
theorem determineExactScore_X_unequal :
    determineExactScore "X" (some "3.8") (some "1.0") = "4-3" ∧
      ¬ ∃ n : Int, 0 ≤ n ∧ n ≤ 4 ∧
        determineExactScore "X" (some "3.8") (some "1.0") =
          toString n ++ "-" ++ toString n := by
  have hval : determineExactScore "X" (some "3.8") (some "1.0") = "4-3" := by
    with_unfolding_all decide
  refine ⟨hval, ?_⟩
  rintro ⟨n, h0, h4, heq⟩
  rw [hval] at heq
  interval_cases n <;> revert heq <;> decide

end Xbet
